import Mathlib

/-!
Shallow embedding of the SMPP-to-Telegram bridge script
(`sms16公版测试版.py`): payload text codecs, the shared SMPP client
handle, the outbound dispatcher `send_sms`, the keep-alive loop
`smpp_keep_alive`, the inbound callback `handle_incoming_sms`, the relay
queue, the consumer loop `process_incoming_messages`, and the chat
front-end `handle_message`.  External effects (the smpplib client, the
Telegram bot, sockets, timers) are modelled by explicit outcome
parameters; machine bytes are `Nat` values below 256.
-/

namespace SmsBridge

/-! ### Text codecs

Python `bytes.decode('latin-1', errors='ignore')` maps every byte to the
code point of the same value and never fails; `errors='ignore'` is
unreachable for latin-1.  `bytes.decode('ascii', errors='ignore')` drops
every byte at or above 128.  `bytes.decode('utf-16-be', errors='ignore')`
pairs bytes big-endian into 16-bit units, combines surrogate pairs, and
silently drops a trailing odd byte, a lone surrogate unit, or a high
surrogate not followed by a low one.  `str.encode('utf-16-be')` emits each
code point as one unit, or as a surrogate pair above 0xFFFF. -/

def latin1Decode (bs : List Nat) : String :=
  (bs.map Char.ofNat).asString

def asciiIgnoreDecode (bs : List Nat) : String :=
  ((bs.filter (fun b => b < 128)).map Char.ofNat).asString

def bytesToUnits : List Nat → List Nat
  | b1 :: b2 :: rest => (b1 * 256 + b2) :: bytesToUnits rest
  | _ => []

def unitsToCps : List Nat → List Nat
  | [] => []
  | u :: rest =>
    if u < 0xD800 ∨ 0xE000 ≤ u then
      u :: unitsToCps rest
    else if 0xDC00 ≤ u then
      unitsToCps rest
    else
      match rest with
      | [] => []
      | l :: rest2 =>
        if 0xDC00 ≤ l ∧ l < 0xE000 then
          (0x10000 + (u - 0xD800) * 0x400 + (l - 0xDC00)) :: unitsToCps rest2
        else
          unitsToCps (l :: rest2)
termination_by l => l.length
decreasing_by
  all_goals simp [List.length_cons]
  all_goals omega

def utf16beDecodeIgnore (bs : List Nat) : String :=
  ((unitsToCps (bytesToUnits bs)).map Char.ofNat).asString

def utf16beEncodeChar (c : Char) : List Nat :=
  let n := c.toNat
  if n < 0x10000 then
    [n / 256, n % 256]
  else
    let v := n - 0x10000
    let hi := 0xD800 + v / 0x400
    let lo := 0xDC00 + v % 0x400
    [hi / 256, hi % 256, lo / 256, lo % 256]

def utf16beEncodeList : List Char → List Nat
  | [] => []
  | c :: cs => utf16beEncodeChar c ++ utf16beEncodeList cs

def utf16beEncode (s : String) : List Nat :=
  utf16beEncodeList s.data

/-- Dispatch on the frame's `data_coding` indicator, from lines 116-121 of
the script: 0 uses latin-1, 8 uses UTF-16-BE, anything else latin-1. -/
def decodePayload (dc : Nat) (bs : List Nat) : String :=
  if dc = 0 then latin1Decode bs
  else if dc = 8 then utf16beDecodeIgnore bs
  else latin1Decode bs

/-! ### The shared SMPP client handle and protocol constants

`smpplib` is an external dependency: its constants are fixed values, and
its fallible operations (connect, bind, send, unbind, disconnect) are
modelled by explicit success/failure outcomes supplied by the
environment.  The reported `client.state` on each read is likewise an
environment observation, since `smpplib` mutates it. -/

def SMPP_TON_INTL : Nat := 1

def SMPP_MSGMODE_DEFAULT : Nat := 0

def SMPP_PHONE_NUMBER : String := "gateway-sender-number"

inductive ClientState where
  | sClosed
  | sOpen
  | sBoundTRX
  | sOther
deriving DecidableEq

/-- Membership test of line 51-52: `client.state in [SMPP_CLIENT_STATE_OPEN,
SMPP_CLIENT_STATE_BOUND_TRX]`. -/
def aliveForKeepAlive (st : ClientState) : Bool :=
  st = ClientState.sOpen ∨ st = ClientState.sBoundTRX

/-- Membership test of line 74: `client.state in [SMPP_CLIENT_STATE_BOUND_TRX]`. -/
def boundForSend (st : ClientState) : Bool :=
  st = ClientState.sBoundTRX

/-- A client handle; `sid` identifies the underlying object so that
unbind/disconnect of a particular handle can be tracked. -/
structure Session where
  sid : Nat
deriving DecidableEq

/-- Outcome of one invocation of `connect_smpp` (lines 31-44).  The global
`client` is reassigned to the freshly constructed object *before*
`connect`/`bind_transceiver` can raise, so on failure the global still
ends up pointing at the fresh, unbound object (`stub`), while the
exception propagates to the caller. -/
inductive ConnectOutcome where
  | ok (fresh : Session)
  | fail (stub : Session)
deriving DecidableEq

/-- Runs `connect_smpp` for a given outcome: returns the new value of the
global `client` and whether the call returned normally. -/
def connect_smpp (out : ConnectOutcome) : Option Session × Bool :=
  match out with
  | ConnectOutcome.ok s => (some s, true)
  | ConnectOutcome.fail s => (some s, false)

/-- An outbound `submit_sm` frame as assembled by `send_sms`
(lines 79-87). -/
structure Frame where
  source_addr_ton : Nat
  source_addr : String
  dest_addr_ton : Nat
  destination_addr : String
  short_message : List Nat
  data_coding : Nat
  esmClass : Nat
deriving DecidableEq

/-- Observable protocol-level action performed by the script. -/
inductive Act where
  | connectAtt (ok : Bool)
  | sendAtt (f : Frame) (ok : Bool)
  | probeAtt (ok : Bool)
  | unbindAtt (sid : Nat)
  | discAtt (sid : Nat)
  | sleepFor (n : Nat)
deriving DecidableEq

def countConnects (acts : List Act) : Nat :=
  acts.countP (fun a => match a with | Act.connectAtt _ => true | _ => false)

def countSends (acts : List Act) : Nat :=
  acts.countP (fun a => match a with | Act.sendAtt _ _ => true | _ => false)

def sleepsOf (acts : List Act) : List Nat :=
  acts.filterMap (fun a => match a with | Act.sleepFor n => some n | _ => none)

/-! ### Outbound dispatch: `send_sms` (lines 70-92) -/

/-- Environment for one `send_sms` call: the state the current client
reports, the outcome of `connect_smpp` if a reconnect is forced, and
whether `client.send_message` succeeds. -/
structure SendEnv where
  observedState : ClientState
  connectOut : ConnectOutcome
  sendOk : Bool
deriving DecidableEq

def mkFrame (phone msg : String) : Frame :=
  { source_addr_ton := SMPP_TON_INTL
    source_addr := SMPP_PHONE_NUMBER
    dest_addr_ton := SMPP_TON_INTL
    destination_addr := phone
    short_message := utf16beEncode msg
    data_coding := 8
    esmClass := SMPP_MSGMODE_DEFAULT }

/-- `if not client or client.state not in [SMPP_CLIENT_STATE_BOUND_TRX]`
(line 74). -/
def isBound (cl : Option Session) (st : ClientState) : Bool :=
  match cl with
  | none => false
  | some _ => boundForSend st

/-- `send_sms` (lines 70-92): reconnect if unbound, then a single
`send_message`; any exception is caught and turned into `false`.
Returns the new global `client`, the boolean result, and the trace of
protocol actions. -/
def send_sms (phone msg : String) (cl : Option Session) (env : SendEnv) :
    Option Session × Bool × List Act :=
  if isBound cl env.observedState then
    (cl, env.sendOk, [Act.sendAtt (mkFrame phone msg) env.sendOk])
  else
    match connect_smpp env.connectOut with
    | (g, false) => (g, false, [Act.connectAtt false])
    | (g, true) =>
      (g, env.sendOk,
        [Act.connectAtt true, Act.sendAtt (mkFrame phone msg) env.sendOk])

/-! ### Keep-alive monitor: `smpp_keep_alive` (lines 46-64) -/

/-- Environment for one tick of the keep-alive loop. -/
structure TickEnv where
  observedState : ClientState
  probeOk : Bool
  unbindOk : Bool
  discOk : Bool
  connectOut : ConnectOutcome
deriving DecidableEq

structure TickLog where
  acts : List Act
  caught : Bool
deriving DecidableEq

/-- One iteration of the `while True` body of `smpp_keep_alive`: probe
when the reported state is open or bound-TRX, otherwise unbind,
disconnect and reconnect; any exception is caught (line 61) and adds a
5-unit back-off sleep before the unconditional 30-unit sleep. -/
def smpp_keep_alive_tick (cl : Option Session) (env : TickEnv) :
    Option Session × TickLog :=
  match cl with
  | some c =>
    if aliveForKeepAlive env.observedState then
      if env.probeOk then
        (some c, ⟨[Act.probeAtt true, Act.sleepFor 30], false⟩)
      else
        (some c, ⟨[Act.probeAtt false, Act.sleepFor 5, Act.sleepFor 30], true⟩)
    else
      if env.unbindOk then
        if env.discOk then
          match connect_smpp env.connectOut with
          | (g, true) =>
            (g, ⟨[Act.unbindAtt c.sid, Act.discAtt c.sid, Act.connectAtt true,
                  Act.sleepFor 30], false⟩)
          | (g, false) =>
            (g, ⟨[Act.unbindAtt c.sid, Act.discAtt c.sid, Act.connectAtt false,
                  Act.sleepFor 5, Act.sleepFor 30], true⟩)
        else
          (some c, ⟨[Act.unbindAtt c.sid, Act.discAtt c.sid, Act.sleepFor 5,
                     Act.sleepFor 30], true⟩)
      else
        (some c, ⟨[Act.unbindAtt c.sid, Act.sleepFor 5, Act.sleepFor 30], true⟩)
  | none =>
    match connect_smpp env.connectOut with
    | (g, true) => (g, ⟨[Act.connectAtt true, Act.sleepFor 30], false⟩)
    | (g, false) =>
      (g, ⟨[Act.connectAtt false, Act.sleepFor 5, Act.sleepFor 30], true⟩)

/-- Runs the keep-alive loop for one tick per supplied environment. -/
def smpp_keep_alive_run :
    Option Session → List TickEnv → Option Session × List TickLog
  | cl, [] => (cl, [])
  | cl, e :: es =>
    let r := smpp_keep_alive_tick cl e
    let rest := smpp_keep_alive_run r.1 es
    (rest.1, r.2 :: rest.2)

/-! ### Inbound callback: `handle_incoming_sms` (lines 107-126)

A PDU is modelled by its command tag and the three fields the callback
reads; `source_addr` or `short_message` may be `None` (absent), in which
case the corresponding `.decode`/attribute access in the `try` body
raises.  The `except` handler's log line interpolates `phone_number` and
`raw_message.hex()`; when the exception fired before `phone_number` was
assigned, or when `raw_message` is `None`, that line itself raises
(UnboundLocalError / AttributeError), so the exception escapes the
callback. -/

abbrev Msg := String × String

structure Pdu where
  command : String
  source_addr : Option (List Nat)
  short_message : Option (List Nat)
  data_coding : Option Nat
deriving DecidableEq

inductive HStatus where
  | ok
  | raisedOut
deriving DecidableEq

def handle_incoming_sms (pdu : Pdu) (q : List Msg) : List Msg × HStatus :=
  if pdu.command = "deliver_sm" then
    match pdu.source_addr with
    | none => (q, HStatus.raisedOut)
    | some sa =>
      match pdu.short_message with
      | none => (q, HStatus.raisedOut)
      | some bs =>
        let phone := asciiIgnoreDecode sa
        let content := decodePayload (pdu.data_coding.getD 0) bs
        (q ++ [(phone, content)], HStatus.ok)
  else
    (q, HStatus.ok)

/-! ### The relay queue (`message_queue`, line 29)

`queue.Queue` is FIFO: `put` appends at the tail, `get` removes the
head, `get(timeout=1)` on an empty queue raises `queue.Empty`. -/

inductive QOp where
  | put (m : Msg)
  | take
deriving DecidableEq

/-- Interleaved producer/consumer operations on the queue; returns the
final queue contents and the dequeued messages in dequeue order.  A
`take` on an empty queue dequeues nothing (the `queue.Empty` timeout
path). -/
def message_queue_run : List QOp → List Msg → List Msg × List Msg
  | [], q => (q, [])
  | QOp.put m :: ops, q => message_queue_run ops (q ++ [m])
  | QOp.take :: ops, q =>
    match q with
    | [] => message_queue_run ops []
    | m :: rest =>
      let r := message_queue_run ops rest
      (r.1, m :: r.2)

def putsOf : List QOp → List Msg
  | [] => []
  | QOp.put m :: ops => m :: putsOf ops
  | QOp.take :: ops => putsOf ops

/-! ### Notification consumer: `process_incoming_messages` (lines 128-141)

The loop's `try` catches only `queue.Empty`; a failure of
`bot.send_message` propagates out of the coroutine. -/

inductive ConsumerResult where
  | continued (q : List Msg) (forwarded : Option Msg) (slept : Bool)
  | crashed (q : List Msg) (dropped : Msg)
deriving DecidableEq

/-- One iteration of the consumer loop, given whether the forward to the
chat platform would succeed. -/
def process_incoming_step (q : List Msg) (forwardOk : Bool) : ConsumerResult :=
  match q with
  | [] => ConsumerResult.continued [] none true
  | m :: rest =>
    if forwardOk then ConsumerResult.continued rest (some m) false
    else ConsumerResult.crashed rest m

/-- Iterated consumer on a fixed backlog, one forward outcome per
dequeued message: returns the messages forwarded in order, and the
message on which the loop crashed, if any. -/
def process_incoming_run : List Msg → List Bool → List Msg × Option Msg
  | [], _ => ([], none)
  | _ :: _, [] => ([], none)
  | m :: q, ok :: outs =>
    if ok then
      let r := process_incoming_run q outs
      (m :: r.1, r.2)
    else
      ([], some m)

/-! ### Chat front end: `handle_message` (lines 94-105)

`user_message.split(' ', 1)` yields two parts when the text contains a
space; otherwise tuple unpacking raises `ValueError`, caught as the
format-error reply. -/

def splitFirstSpaceAux : List Char → Option (List Char × List Char)
  | [] => none
  | c :: cs =>
    if c = ' ' then some ([], cs)
    else
      match splitFirstSpaceAux cs with
      | none => none
      | some (a, b) => some (c :: a, b)

/-- Python `s.split(' ', 1)` restricted to the two shapes the script
distinguishes: `none` when there is no space (unpacking raises
`ValueError`), otherwise the parts before and after the first space. -/
def pySplitOnce (s : String) : Option (String × String) :=
  match splitFirstSpaceAux s.data with
  | none => none
  | some (a, b) => some (a.asString, b.asString)

inductive Reply where
  | sentConfirmation (message phone : String)
  | sendFailure
  | formatError
deriving DecidableEq

/-- `handle_message`: returns the new global client, the arguments
`send_sms` was invoked with (`none` when it was never invoked), and the
reply surfaced to the user. -/
def handle_message (text : String) (cl : Option Session) (env : SendEnv) :
    Option Session × Option (String × String) × Reply :=
  match pySplitOnce text with
  | none => (cl, none, Reply.formatError)
  | some (phone, msg) =>
    let r := send_sms phone msg cl env
    (r.1, some (phone, msg),
      if r.2.1 then Reply.sentConfirmation msg phone else Reply.sendFailure)

/-! ### Codec lemmas -/

/-- The 16-bit code units a character contributes to its UTF-16-BE
encoding. -/
def unitsOfChar (c : Char) : List Nat :=
  if c.toNat < 0x10000 then [c.toNat]
  else
    [0xD800 + (c.toNat - 0x10000) / 0x400, 0xDC00 + (c.toNat - 0x10000) % 0x400]

def unitsOfList : List Char → List Nat
  | [] => []
  | c :: cs => unitsOfChar c ++ unitsOfList cs

theorem char_toNat_valid (c : Char) :
    c.toNat < 0xD800 ∨ (0xDFFF < c.toNat ∧ c.toNat < 0x110000) := c.valid

theorem bytesToUnits_encodeList (cs : List Char) :
    bytesToUnits (utf16beEncodeList cs) = unitsOfList cs := by
  induction cs with
  | nil => rfl
  | cons c cs ih =>
    by_cases h : c.toNat < 0x10000
    · simp only [utf16beEncodeList, utf16beEncodeChar, h, if_true, unitsOfList,
        unitsOfChar, List.cons_append, List.nil_append, bytesToUnits, ih,
        List.cons.injEq, and_true]
      omega
    · simp only [utf16beEncodeList, utf16beEncodeChar, h, if_false, unitsOfList,
        unitsOfChar, List.cons_append, List.nil_append, bytesToUnits, ih,
        List.cons.injEq, and_true]
      constructor <;> omega

theorem unitsToCps_nil : unitsToCps [] = [] := by
  simp [unitsToCps]

theorem unitsToCps_bmp (u : Nat) (rest : List Nat)
    (h : u < 0xD800 ∨ 0xE000 ≤ u) :
    unitsToCps (u :: rest) = u :: unitsToCps rest := by
  rw [unitsToCps.eq_def]
  simp [h]

theorem unitsToCps_pair (u l : Nat) (rest : List Nat)
    (h1 : 0xD800 ≤ u) (h2 : u < 0xDC00) (h3 : 0xDC00 ≤ l) (h4 : l < 0xE000) :
    unitsToCps (u :: l :: rest) =
      (0x10000 + (u - 0xD800) * 0x400 + (l - 0xDC00)) :: unitsToCps rest := by
  rw [unitsToCps.eq_def]
  have hx : ¬ (u < 0xD800 ∨ 0xE000 ≤ u) := by omega
  have hy : ¬ (0xDC00 ≤ u) := by omega
  simp [hx, hy, h3, h4]

theorem unitsToCps_encodeList (cs : List Char) :
    unitsToCps (unitsOfList cs) = cs.map Char.toNat := by
  induction cs with
  | nil => exact unitsToCps_nil
  | cons c cs ih =>
    have hv := char_toNat_valid c
    by_cases h : c.toNat < 0x10000
    · have hcond : c.toNat < 0xD800 ∨ 0xE000 ≤ c.toNat := by omega
      simp only [unitsOfList, unitsOfChar, h, if_true, List.cons_append,
        List.nil_append, List.map_cons]
      rw [unitsToCps_bmp _ _ hcond, ih]
    · simp only [unitsOfList, unitsOfChar, h, if_false, List.cons_append,
        List.nil_append, List.map_cons]
      rw [unitsToCps_pair _ _ _ (by omega) (by omega) (by omega) (by omega), ih,
        List.cons.injEq]
      exact ⟨by omega, rfl⟩

theorem utf16be_roundtrip (s : String) :
    utf16beDecodeIgnore (utf16beEncode s) = s := by
  unfold utf16beDecodeIgnore utf16beEncode
  rw [bytesToUnits_encodeList, unitsToCps_encodeList, List.map_map]
  have hmap : s.data.map (Char.ofNat ∘ Char.toNat) = s.data := by
    induction s.data with
    | nil => rfl
    | cons c cs ih => simp [Function.comp, Char.ofNat_toNat, ih]
  rw [hmap]
  cases s
  rfl

/-! ### Claim C2 -/

/-- C2 counterexample: under encoding indicator 8 the raw payload `[0]`
(a truncated 16-bit sequence, hence invalid) decodes to the empty string:
the invalid byte is silently dropped, no substitution character (U+FFFD)
is produced, contradicting the claim that invalid byte sequences are
replaced by substitution characters. -/
theorem decodePayload_drops_invalid_bytes :
    decodePayload 8 [0] = "" ∧
    ¬ Char.ofNat 0xFFFD ∈ (decodePayload 8 [0]).data := by
  have h1 : decodePayload 8 [0] = ((unitsToCps []).map Char.ofNat).asString := by
    simp [decodePayload, utf16beDecodeIgnore, bytesToUnits]
  rw [h1, unitsToCps_nil]
  exact ⟨rfl, by intro h; simp [List.asString] at h⟩

/-- C2 amended: decoding of the inbound payload is total and selected by
the frame's encoding indicator.  Indicator 8 yields the 16-bit big-endian
decoding of the raw bytes (exactly, on every well-formed UTF-16-BE
payload, i.e. on every encoded string); indicator 0 or any other value
yields the single-byte latin-1 fallback, which consumes every byte and
never fails.  Decoding never raises for any byte sequence; invalid byte
sequences are silently dropped (Python `errors='ignore'`), not replaced
by substitution characters. -/
theorem decodePayload_total_and_selected :
    (∀ s : String, decodePayload 8 (utf16beEncode s) = s) ∧
    (∀ dc bs, dc ≠ 8 → decodePayload dc bs = latin1Decode bs) ∧
    (∀ bs, (latin1Decode bs).length = bs.length) := by
  refine ⟨?_, ?_, ?_⟩
  · intro s
    have h8 : (8 : Nat) ≠ 0 := by decide
    simp only [decodePayload, if_neg h8, if_pos rfl]
    exact utf16be_roundtrip s
  · intro dc bs h
    by_cases h0 : dc = 0
    · simp [decodePayload, h0]
    · simp [decodePayload, h0, h]
  · intro bs
    simp [latin1Decode, String.length, List.asString]

/-- C2 amended, witness at indicator 9 and payload `[0x48]`. -/
theorem decodePayload_total_and_selected_witness :
    decodePayload 9 [0x48] = latin1Decode [0x48] :=
  decodePayload_total_and_selected.2.1 9 [0x48] (by decide)

/-! ### Claim C1 -/

/-- C1: `send_sms` with a bound session performs no reconnect and exactly
one protocol send, returning the send's success; with an absent or
unbound session it performs exactly one reconnect attempt, then (when the
reconnect succeeds) exactly one send, in that order, returning the send's
success; when the reconnect fails it performs no send and returns
`false`. -/
theorem send_sms_dispatch (phone msg : String) (cl : Option Session)
    (env : SendEnv) :
    (isBound cl env.observedState = true →
      countConnects (send_sms phone msg cl env).2.2 = 0 ∧
      countSends (send_sms phone msg cl env).2.2 = 1 ∧
      (send_sms phone msg cl env).2.1 = env.sendOk) ∧
    (isBound cl env.observedState = false →
      countConnects (send_sms phone msg cl env).2.2 = 1 ∧
      (∀ s, env.connectOut = ConnectOutcome.ok s →
        (send_sms phone msg cl env).2.2 =
          [Act.connectAtt true, Act.sendAtt (mkFrame phone msg) env.sendOk] ∧
        (send_sms phone msg cl env).2.1 = env.sendOk) ∧
      (∀ s, env.connectOut = ConnectOutcome.fail s →
        countSends (send_sms phone msg cl env).2.2 = 0 ∧
        (send_sms phone msg cl env).2.1 = false)) := by
  obtain ⟨st, co, so⟩ := env
  constructor
  · intro h
    simp only [send_sms] at *
    simp [h, countConnects, countSends]
  · intro h
    refine ⟨?_, ?_, ?_⟩
    · simp only [send_sms] at *
      cases co <;> simp [h, connect_smpp, countConnects]
    · intro s hs
      simp only at hs
      subst hs
      simp [send_sms, h, connect_smpp]
    · intro s hs
      simp only at hs
      subst hs
      simp [send_sms, h, connect_smpp, countSends]

/-- C1 witness: a bound session sends once with no reconnect; an absent
session reconnects once and then sends once. -/
theorem send_sms_dispatch_witness :
    (countConnects (send_sms "15551234567" "Hello" (some ⟨0⟩)
        ⟨ClientState.sBoundTRX, ConnectOutcome.ok ⟨1⟩, true⟩).2.2 = 0 ∧
      countSends (send_sms "15551234567" "Hello" (some ⟨0⟩)
        ⟨ClientState.sBoundTRX, ConnectOutcome.ok ⟨1⟩, true⟩).2.2 = 1 ∧
      (send_sms "15551234567" "Hello" (some ⟨0⟩)
        ⟨ClientState.sBoundTRX, ConnectOutcome.ok ⟨1⟩, true⟩).2.1 = true) ∧
    (countConnects (send_sms "15551234567" "Hello" none
        ⟨ClientState.sClosed, ConnectOutcome.ok ⟨1⟩, true⟩).2.2 = 1 ∧
      ((send_sms "15551234567" "Hello" none
          ⟨ClientState.sClosed, ConnectOutcome.ok ⟨1⟩, true⟩).2.2 =
        [Act.connectAtt true,
         Act.sendAtt (mkFrame "15551234567" "Hello") true] ∧
        (send_sms "15551234567" "Hello" none
          ⟨ClientState.sClosed, ConnectOutcome.ok ⟨1⟩, true⟩).2.1 = true)) := by
  refine ⟨?_, ?_, ?_⟩
  · exact (send_sms_dispatch "15551234567" "Hello" (some ⟨0⟩)
      ⟨ClientState.sBoundTRX, ConnectOutcome.ok ⟨1⟩, true⟩).1 (by decide)
  · exact ((send_sms_dispatch "15551234567" "Hello" none
      ⟨ClientState.sClosed, ConnectOutcome.ok ⟨1⟩, true⟩).2 (by decide)).1
  · exact ((send_sms_dispatch "15551234567" "Hello" none
      ⟨ClientState.sClosed, ConnectOutcome.ok ⟨1⟩, true⟩).2 (by decide)).2.1 ⟨1⟩ rfl

/-! ### Claim C8 -/

/-- C8: every frame submitted by `send_sms` carries the UTF-16-BE
encoding of the body with data-coding value 8, and both address
type-of-number fields set to the international scheme; the destination is
the requested number and the source the configured sender. -/
theorem send_sms_frame_encoding (phone msg : String) (cl : Option Session)
    (env : SendEnv) (f : Frame) (ok : Bool)
    (h : Act.sendAtt f ok ∈ (send_sms phone msg cl env).2.2) :
    f.short_message = utf16beEncode msg ∧ f.data_coding = 8 ∧
    f.source_addr_ton = SMPP_TON_INTL ∧ f.dest_addr_ton = SMPP_TON_INTL ∧
    f.destination_addr = phone ∧ f.source_addr = SMPP_PHONE_NUMBER := by
  have hf : f = mkFrame phone msg := by
    obtain ⟨st, co, so⟩ := env
    by_cases hb : isBound cl st
    · simp [send_sms, hb] at h
      exact h.1
    · cases co <;> simp [send_sms, hb, connect_smpp] at h
      exact h.1
  subst hf
  exact ⟨rfl, rfl, rfl, rfl, rfl, rfl⟩

/-- C8 witness on a concrete bound-session send. -/
theorem send_sms_frame_encoding_witness :
    (mkFrame "15551234567" "Hi").short_message = utf16beEncode "Hi" ∧
    (mkFrame "15551234567" "Hi").data_coding = 8 ∧
    (mkFrame "15551234567" "Hi").source_addr_ton = SMPP_TON_INTL ∧
    (mkFrame "15551234567" "Hi").dest_addr_ton = SMPP_TON_INTL ∧
    (mkFrame "15551234567" "Hi").destination_addr = "15551234567" ∧
    (mkFrame "15551234567" "Hi").source_addr = SMPP_PHONE_NUMBER :=
  send_sms_frame_encoding "15551234567" "Hi" (some ⟨0⟩)
    ⟨ClientState.sBoundTRX, ConnectOutcome.ok ⟨1⟩, true⟩
    (mkFrame "15551234567" "Hi") true (by decide)

/-! ### Claim C9 -/

theorem splitFirstSpaceAux_eq (cs : List Char) :
    splitFirstSpaceAux cs =
      if ' ' ∈ cs then
        some (cs.takeWhile (fun c => c ≠ ' '),
          cs.drop ((cs.takeWhile (fun c => c ≠ ' ')).length + 1))
      else none := by
  induction cs with
  | nil => simp [splitFirstSpaceAux]
  | cons c cs ih =>
    by_cases hc : c = ' '
    · subst hc
      simp [splitFirstSpaceAux, List.takeWhile_cons]
    · by_cases hm : ' ' ∈ cs
      · have hmem : ' ' ∈ c :: cs := List.mem_cons_of_mem _ hm
        simp [splitFirstSpaceAux, hc, ih, hm, hmem, List.takeWhile_cons,
          List.drop_succ_cons]
      · have hmem : ¬ ' ' ∈ c :: cs := by
          intro hx
          rcases List.mem_cons.mp hx with h1 | h1
          · exact hc h1.symm
          · exact hm h1
        simp [splitFirstSpaceAux, hc, ih, hm, hmem]

/-- C9: the front end splits the chat message on the first space; without
a space, `send_sms` is never invoked and the user gets the format-error
reply; with a space, `send_sms` is invoked with the part before the first
space as destination and the remainder as body. -/
theorem handle_message_splits (text : String) (cl : Option Session)
    (env : SendEnv) :
    (¬ ' ' ∈ text.data →
      handle_message text cl env = (cl, none, Reply.formatError)) ∧
    (' ' ∈ text.data →
      (handle_message text cl env).2.1 =
        some ((text.data.takeWhile (fun c => c ≠ ' ')).asString,
          (text.data.drop
            ((text.data.takeWhile (fun c => c ≠ ' ')).length + 1)).asString)) := by
  constructor
  · intro h
    simp [handle_message, pySplitOnce, splitFirstSpaceAux_eq, h]
  · intro h
    simp [handle_message, pySplitOnce, splitFirstSpaceAux_eq, h]

/-- C9 witness: "15551234567 Hello world" splits at the first space and
reaches the dispatcher; "hello" does not and yields the format error. -/
theorem handle_message_splits_witness :
    handle_message "hello" (some ⟨0⟩)
      ⟨ClientState.sBoundTRX, ConnectOutcome.ok ⟨1⟩, true⟩ =
      (some ⟨0⟩, none, Reply.formatError) ∧
    (handle_message "15551234567 Hello world" (some ⟨0⟩)
      ⟨ClientState.sBoundTRX, ConnectOutcome.ok ⟨1⟩, true⟩).2.1 =
      some (("15551234567".data.takeWhile (fun c => c ≠ ' ')).asString,
        ("15551234567 Hello world".data.drop 12).asString) := by
  constructor
  · exact (handle_message_splits "hello" (some ⟨0⟩)
      ⟨ClientState.sBoundTRX, ConnectOutcome.ok ⟨1⟩, true⟩).1 (by decide)
  · have h := (handle_message_splits "15551234567 Hello world" (some ⟨0⟩)
      ⟨ClientState.sBoundTRX, ConnectOutcome.ok ⟨1⟩, true⟩).2 (by decide)
    rw [h]
    decide

/-! ### Claim C10 -/

/-- C10: a deliver frame with no `data_coding` field is decoded with the
single-byte latin-1 fallback (indicator defaulted to 0), and the relay
queue gains a message only for frames whose command tag is
`deliver_sm` — any other frame leaves the queue unchanged. -/
theorem handle_incoming_default_and_filter :
    (∀ sa bs q, handle_incoming_sms ⟨"deliver_sm", some sa, some bs, none⟩ q =
      (q ++ [(asciiIgnoreDecode sa, latin1Decode bs)], HStatus.ok)) ∧
    (∀ pdu q, pdu.command ≠ "deliver_sm" →
      handle_incoming_sms pdu q = (q, HStatus.ok)) ∧
    (∀ pdu q, (handle_incoming_sms pdu q).1 ≠ q →
      pdu.command = "deliver_sm") := by
  refine ⟨?_, ?_, ?_⟩
  · intro sa bs q
    simp [handle_incoming_sms, decodePayload]
  · intro pdu q h
    simp [handle_incoming_sms, h]
  · intro pdu q h
    by_cases hc : pdu.command = "deliver_sm"
    · exact hc
    · exact absurd (by simp [handle_incoming_sms, hc]) h

/-- C10 witness: a frame without `data_coding` enqueues the latin-1
decoding; an `enquire_link` frame leaves the queue unchanged; a concrete
enqueueing frame has the `deliver_sm` tag. -/
theorem handle_incoming_default_and_filter_witness :
    handle_incoming_sms ⟨"deliver_sm", some [0x31], some [0xE9], none⟩ [] =
      ([(asciiIgnoreDecode [0x31], latin1Decode [0xE9])], HStatus.ok) ∧
    handle_incoming_sms ⟨"enquire_link", none, none, none⟩ [] =
      ([], HStatus.ok) ∧
    (⟨"deliver_sm", some [0x31], some [0x41], some 0⟩ : Pdu).command =
      "deliver_sm" := by
  refine ⟨?_, ?_, ?_⟩
  · exact handle_incoming_default_and_filter.1 [0x31] [0xE9] []
  · exact handle_incoming_default_and_filter.2.1 ⟨"enquire_link", none, none, none⟩
      [] (by decide)
  · exact handle_incoming_default_and_filter.2.2
      ⟨"deliver_sm", some [0x31], some [0x41], some 0⟩ [] (by decide)

/-! ### Claim C6 -/

/-- C6: the receive callback is *not* exception-free.  On a `deliver_sm`
frame whose `short_message` is absent (`None`), the decode in the `try`
body raises, and the `except` handler's log line then evaluates
`raw_message.hex()` on `None` and raises itself, so the exception escapes
the callback into the listener thread.  The same happens when
`source_addr` is absent, where the handler's reference to the still
unbound `phone_number` raises.  The code's own `try`/`except`-and-log
structure shows the claimed never-raise behaviour was the intent. -/
theorem handle_incoming_sms_raises_on_malformed :
    handle_incoming_sms ⟨"deliver_sm", some [0x31, 0x35], none, some 0⟩ [] =
      ([], HStatus.raisedOut) ∧
    handle_incoming_sms ⟨"deliver_sm", none, some [0x48, 0x69], some 0⟩ [] =
      ([], HStatus.raisedOut) := by
  constructor <;> rfl

/-! ### Claim C3 -/

/-- C3 counterexample: when forwarding the dequeued message fails, the
consumer loop does not continue — the `try` catches only `queue.Empty`,
so the exception propagates and the iteration result is a crash of the
loop, not a continuation. -/
theorem process_incoming_crash_counterexample :
    process_incoming_step [("15559876543", "Hi")] false =
      ConsumerResult.crashed [] ("15559876543", "Hi") ∧
    ¬ ∃ q f s, process_incoming_step [("15559876543", "Hi")] false =
      ConsumerResult.continued q f s := by
  refine ⟨rfl, ?_⟩
  rintro ⟨q, f, s, h⟩
  simp [process_incoming_step] at h

/-- C3 amended: the consumer loop continues across empty-queue timeouts
(cooperative sleep, then retry) and across successful forwards (the
message is acknowledged and dropped from the queue); but a forwarding
failure is not caught — the exception propagates and terminates the
loop, the failed message is dropped without redelivery, and no further
queued message is processed. -/
theorem process_incoming_amended (m : Msg) (q : List Msg) (ok : Bool)
    (outs : List Bool) :
    process_incoming_step [] ok = ConsumerResult.continued [] none true ∧
    process_incoming_step (m :: q) true =
      ConsumerResult.continued q (some m) false ∧
    process_incoming_step (m :: q) false = ConsumerResult.crashed q m ∧
    process_incoming_run (m :: q) (false :: outs) = ([], some m) := by
  refine ⟨?_, rfl, rfl, rfl⟩
  cases ok <;> rfl

/-! ### Claim C5 -/

theorem tick_sleeps (cl : Option Session) (env : TickEnv) :
    sleepsOf (smpp_keep_alive_tick cl env).2.acts =
      if (smpp_keep_alive_tick cl env).2.caught then [5, 30] else [30] := by
  obtain ⟨st, p, u, d, co⟩ := env
  cases cl with
  | none =>
    cases co <;> simp [smpp_keep_alive_tick, connect_smpp, sleepsOf]
  | some c =>
    by_cases hA : aliveForKeepAlive st
    all_goals cases p <;> cases u <;> cases d <;> cases co <;>
      simp [smpp_keep_alive_tick, connect_smpp, sleepsOf, hA]

/-- C5: the keep-alive monitor processes every tick (no exception escapes
the loop body, so it runs for the whole life of the process), and a tick
on which an exception was caught sleeps the 5-unit back-off followed by
the regular 30-unit period, while a clean tick sleeps only the 30-unit
period. -/
theorem smpp_keep_alive_never_dies (cl : Option Session)
    (envs : List TickEnv) :
    (smpp_keep_alive_run cl envs).2.length = envs.length ∧
    ∀ lg ∈ (smpp_keep_alive_run cl envs).2,
      sleepsOf lg.acts = if lg.caught then [5, 30] else [30] := by
  induction envs generalizing cl with
  | nil => exact ⟨rfl, by intro lg h; cases h⟩
  | cons e es ih =>
    refine ⟨?_, ?_⟩
    · simp only [smpp_keep_alive_run, List.length_cons]
      rw [(ih (smpp_keep_alive_tick cl e).1).1]
    · intro lg h
      simp only [smpp_keep_alive_run, List.mem_cons] at h
      rcases h with h | h
      · rw [h]
        exact tick_sleeps cl e
      · exact (ih (smpp_keep_alive_tick cl e).1).2 lg h

/-- C5 witness: one tick with a failing probe on a bound session is
processed and backs off five units before the 30-unit period. -/
theorem smpp_keep_alive_never_dies_witness :
    (smpp_keep_alive_run (some ⟨0⟩)
      [⟨ClientState.sBoundTRX, false, true, true, ConnectOutcome.ok ⟨1⟩⟩]).2.length
      = 1 ∧
    sleepsOf (⟨[Act.probeAtt false, Act.sleepFor 5, Act.sleepFor 30],
      true⟩ : TickLog).acts = [5, 30] := by
  constructor
  · exact (smpp_keep_alive_never_dies (some ⟨0⟩)
      [⟨ClientState.sBoundTRX, false, true, true, ConnectOutcome.ok ⟨1⟩⟩]).1
  · exact (smpp_keep_alive_never_dies (some ⟨0⟩)
      [⟨ClientState.sBoundTRX, false, true, true, ConnectOutcome.ok ⟨1⟩⟩]).2
      ⟨[Act.probeAtt false, Act.sleepFor 5, Act.sleepFor 30], true⟩ (by decide)

/-! ### Claim C7 -/

theorem message_queue_run_fifo (ops : List QOp) (q : List Msg) :
    (message_queue_run ops q).2 ++ (message_queue_run ops q).1 =
      q ++ putsOf ops := by
  induction ops generalizing q with
  | nil => simp [message_queue_run, putsOf]
  | cons op ops ih =>
    cases op with
    | put m =>
      simp only [message_queue_run, putsOf]
      rw [ih (q ++ [m]), List.append_assoc]
      rfl
    | take =>
      cases q with
      | nil =>
        simp only [message_queue_run, putsOf]
        exact ih []
      | cons m rest =>
        simp only [message_queue_run, putsOf, List.cons_append, List.cons.injEq,
          true_and]
        exact ih rest

theorem process_incoming_run_all_ok (msgs : List Msg) :
    process_incoming_run msgs (List.replicate msgs.length true) =
      (msgs, none) := by
  induction msgs with
  | nil => rfl
  | cons m q ih => simp [process_incoming_run, List.replicate, ih]

/-- C7: the relay queue preserves FIFO order.  For any interleaving of
callback enqueues and consumer dequeues starting from the empty queue,
the dequeued sequence followed by the messages still queued equals the
enqueued sequence in enqueue order (so dequeues always happen in exactly
the order m1, m2, m3, ... of enqueues); and the consumer forwards a
backlog in exactly queue order when forwarding succeeds. -/
theorem relay_queue_fifo (ops : List QOp) (msgs : List Msg) :
    (message_queue_run ops []).2 ++ (message_queue_run ops []).1 =
      putsOf ops ∧
    process_incoming_run msgs (List.replicate msgs.length true) =
      (msgs, none) :=
  ⟨message_queue_run_fifo ops [], process_incoming_run_all_ok msgs⟩

/-! ### Claim C4 -/

/-- Tick environments realising the scenario: the bound session's probe
send fails, after which the session reports a non-bound state on the
following tick (the smpplib transport's reaction to a dead connection),
and the reconnect succeeds, restoring a bound session; three times. -/
def threeFailureTrace (s1 s2 s3 : Session) : List TickEnv :=
  [⟨ClientState.sBoundTRX, false, true, true, ConnectOutcome.ok s1⟩,
   ⟨ClientState.sClosed, true, true, true, ConnectOutcome.ok s1⟩,
   ⟨ClientState.sBoundTRX, false, true, true, ConnectOutcome.ok s2⟩,
   ⟨ClientState.sClosed, true, true, true, ConnectOutcome.ok s2⟩,
   ⟨ClientState.sBoundTRX, false, true, true, ConnectOutcome.ok s3⟩,
   ⟨ClientState.sClosed, true, true, true, ConnectOutcome.ok s3⟩]

/-- C4: when the liveness probe fails on three consecutive probing ticks
(the session reporting non-bound on each following tick), the monitor
performs exactly three reconnect sequences, each preceded by an unbind
and disconnect of the previous session handle; each probe failure is
caught (the loop never crashes) and the reconnecting branch runs on the
next tick; all six ticks are processed. -/
theorem keep_alive_three_failures (s0 s1 s2 s3 : Session) :
    (smpp_keep_alive_run (some s0) (threeFailureTrace s1 s2 s3)).2 =
      [⟨[Act.probeAtt false, Act.sleepFor 5, Act.sleepFor 30], true⟩,
       ⟨[Act.unbindAtt s0.sid, Act.discAtt s0.sid, Act.connectAtt true,
         Act.sleepFor 30], false⟩,
       ⟨[Act.probeAtt false, Act.sleepFor 5, Act.sleepFor 30], true⟩,
       ⟨[Act.unbindAtt s1.sid, Act.discAtt s1.sid, Act.connectAtt true,
         Act.sleepFor 30], false⟩,
       ⟨[Act.probeAtt false, Act.sleepFor 5, Act.sleepFor 30], true⟩,
       ⟨[Act.unbindAtt s2.sid, Act.discAtt s2.sid, Act.connectAtt true,
         Act.sleepFor 30], false⟩] ∧
    (smpp_keep_alive_run (some s0) (threeFailureTrace s1 s2 s3)).1 = some s3 ∧
    ((smpp_keep_alive_run (some s0) (threeFailureTrace s1 s2 s3)).2.map
      (fun lg => countConnects lg.acts)).sum = 3 := by
  refine ⟨rfl, rfl, rfl⟩

end SmsBridge
